import Mathlib

/-!
Verification of the WNGW test tool's IEC 60870-5-104 core against its
specification.  The definitions below are a shallow embedding of the Python
sources, with file and line references to the repository in the doc comments.
Byte strings are modelled as `List Nat` (entries below 256 when they come from
a real socket), Python `None` as `Option`, and a Python exception escaping a
function as an `Option`/`Except` failure result.
-/

namespace WNGW

/-! Section: Frame codec (backend/iec104/protocol.py) -/

/-- Embeds `U_FRAME_LABELS` (protocol.py lines 14-21): labels of the six known
U-frame control bytes; `none` plays the role of a missing dictionary key. -/
def uFrameLabels (c : Nat) : Option String :=
  if c = 0x07 then some "STARTDT ACT"
  else if c = 0x0B then some "STARTDT CON"
  else if c = 0x13 then some "STOPDT ACT"
  else if c = 0x23 then some "STOPDT CON"
  else if c = 0x43 then some "TESTFR ACT"
  else if c = 0x83 then some "TESTFR CON"
  else none

/-- Embeds `TYPE_LABELS` (protocol.py lines 24-27). -/
def typeLabels (t : Nat) : Option String :=
  if t = 70 then some "INITIALISIERUNGSENDE"
  else if t = 100 then some "GENERALABFRAGE"
  else none

/-- Embeds `COT_LABELS` (protocol.py lines 30-34). -/
def cotLabels (t c : Nat) : Option String :=
  if t = 100 ∧ c = 6 then some "GENERALABFRAGE ACT"
  else if t = 100 ∧ c = 7 then some "GENERALABFRAGE CON"
  else if t = 100 ∧ c = 10 then some "GENERALABFRAGE END"
  else none

/-- Embeds the `Telegram` dataclass (protocol.py lines 38-48). -/
structure Telegram where
  frame_family : String
  label : String
  type_id : Option Nat
  cause : Option Nat
  originator : Option Nat
  station : Option Nat
  ioa : Option Nat
  payload : List Nat
  direction : String
deriving DecidableEq, Repr

/-- Embeds `FrameParser.feed` (protocol.py lines 59-75) acting on the whole
buffered byte string: returns the list of complete frames recognised and the
residual buffer.  One loop iteration either discards a leading non-`0x68`
byte, extracts a complete frame of `buffer[1] + 2` bytes, or stops because
fewer than two bytes (or fewer than the needed bytes) are buffered. -/
def parseFrames : List Nat → List (List Nat) × List Nat
  | [] => ([], [])
  | [b] => ([], [b])
  | b :: b2 :: rest =>
    if b ≠ 0x68 then
      parseFrames (b2 :: rest)
    else
      let needed := b2 + 2
      if rest.length + 2 < needed then ([], b :: b2 :: rest)
      else
        let r := parseFrames ((b :: b2 :: rest).drop needed)
        ((b :: b2 :: rest).take needed :: r.1, r.2)
termination_by l => l.length
decreasing_by
  · simp
  · simp only [List.length_drop, List.length_cons]
    omega

/-- Feeding a parser with buffered residual `st` new bytes `data`
(protocol.py lines 59-61: the new data is appended to the buffer). -/
def feedParser (st data : List Nat) : List (List Nat) × List Nat :=
  parseFrames (st ++ data)

/-- Successive `feed` calls on a fresh parser: concatenates the frames
returned by each call and threads the residual buffer. -/
def feedAll (chunks : List (List Nat)) : List (List Nat) × List Nat :=
  chunks.foldl (fun acc c =>
    let r := feedParser acc.2 c
    (acc.1 ++ r.1, r.2)) ([], [])

/-- Embeds `_extract_sequences` (protocol.py lines 79-84): send and receive
counters read from the control field, `(send, recv)`. -/
def extractSequences (frame : List Nat) : Nat × Nat :=
  if frame.length < 6 then (0, 0)
  else
    (((frame.getD 3 0 <<< 8) ||| frame.getD 2 0) >>> 1,
     ((frame.getD 5 0 <<< 8) ||| frame.getD 4 0) >>> 1)

/-- Embeds `decode_frame` (protocol.py lines 89-137).  `frame[2]` raises
`IndexError` on a frame shorter than three bytes, modelled by `none`; every
other subscript in the source is guarded by an explicit length test. -/
def decodeFrame (frame : List Nat) : Option Telegram :=
  if frame.length < 3 then none
  else
    let control := (frame.drop 2).take 4
    let payload := frame.drop 6
    let ctrl1 := control.getD 0 0
    if ctrl1 &&& 0x01 = 0 then
      let type_id := if payload ≠ [] then some (payload.getD 0 0) else none
      let cause := if 4 ≤ payload.length then some (payload.getD 2 0) else none
      let originator := if 4 ≤ payload.length then some (payload.getD 3 0) else none
      let station :=
        if 6 ≤ payload.length then some (payload.getD 4 0 ||| (payload.getD 5 0 <<< 8))
        else none
      let ioa :=
        if 9 ≤ payload.length then
          some (payload.getD 6 0 ||| (payload.getD 7 0 <<< 8) ||| (payload.getD 8 0 <<< 16))
        else none
      let type_label := match type_id with
        | some t => typeLabels t
        | none => none
      let cause_label := cotLabels (type_id.getD 0) (cause.getD 0)
      let label := ((cause_label).orElse (fun _ => type_label)).getD "I-FRAME"
      some ⟨"I", label, type_id, cause, originator, station, ioa, payload, "incoming"⟩
    else if ctrl1 &&& 0x03 = 0x03 then
      some ⟨"U", (uFrameLabels ctrl1).getD "U-FRAME", none, none, none, none, none,
        payload, "incoming"⟩
    else
      some ⟨"S", "S-FRAME", none, none, none, none, none, payload, "incoming"⟩

/-- Embeds `build_u_frame` (protocol.py lines 141-142). -/
def build_u_frame (command : Nat) : List Nat :=
  [0x68, 0x04, command, 0x00, 0x00, 0x00]

/-- Embeds `build_s_frame` (protocol.py lines 146-157). -/
def build_s_frame (recv_sequence : Nat) : List Nat :=
  let recv_field := recv_sequence <<< 1
  [0x68, 0x04, 0x01, 0x00, recv_field &&& 0xFF, (recv_field >>> 8) &&& 0xFF]

/-- Little-endian byte list of `v` on `len` bytes; embeds Python
`v.to_bytes(len, "little")` for `v < 256 ^ len` (larger values raise, which
callers below rule out or model with `Option`). -/
def natLE (v len : Nat) : List Nat :=
  (List.range len).map (fun i => v / 256 ^ i % 256)

/-- Embeds `build_i_frame` (protocol.py lines 161-193).  `ioa.to_bytes(3,
"little")` requires `ioa < 2 ^ 24`, which every caller in the repository
guarantees by masking the three IOA octets. -/
def build_i_frame (send_sequence recv_sequence type_id cause originator
    common_address ioa : Nat) (information : List Nat) (vsq : Nat) : List Nat :=
  let send_field := send_sequence <<< 1
  let recv_field := recv_sequence <<< 1
  [0x68, information.length + 13,
   send_field &&& 0xFF, (send_field >>> 8) &&& 0xFF,
   recv_field &&& 0xFF, (recv_field >>> 8) &&& 0xFF] ++
  [type_id, vsq &&& 0xFF, cause &&& 0xFF, originator &&& 0xFF,
   common_address &&& 0xFF, (common_address >>> 8) &&& 0xFF] ++
  natLE ioa 3 ++ information

/-! Section: Flow control (backend/iec104/flowcontrol.py) -/

/-- Embeds the `FlowControl` dataclass (flowcontrol.py lines 7-11). -/
structure FlowControl where
  k : Nat
  w : Nat
  sent_without_ack : Nat
deriving DecidableEq, Repr

/-- Embeds `FlowControl.can_send` (flowcontrol.py lines 13-14). -/
def FlowControl.can_send (fc : FlowControl) : Bool :=
  fc.sent_without_ack < fc.k

/-- Embeds `FlowControl.frame_sent` (flowcontrol.py lines 16-17). -/
def FlowControl.frame_sent (fc : FlowControl) : FlowControl :=
  { fc with sent_without_ack := fc.sent_without_ack + 1 }

/-- Embeds `FlowControl.acknowledge` (flowcontrol.py lines 19-20); Python's
`max(0, x - 1)` is truncated subtraction on `Nat`. -/
def FlowControl.acknowledge (fc : FlowControl) : FlowControl :=
  { fc with sent_without_ack := fc.sent_without_ack - 1 }

/-- Embeds `FlowControl.reset` (flowcontrol.py lines 22-23). -/
def FlowControl.reset (fc : FlowControl) : FlowControl :=
  { fc with sent_without_ack := 0 }

/-- Embeds `_BaseEndpoint._flush_pending` (backend/processes.py lines
537-541) with the stop event clear and a sender that accepts every row (the
sender's effects are not modelled here): each iteration pops the head of the
pending list and hands it to the sender.  Returns the rows handed to the
sender, in order, and the remaining pending list. -/
def flushPending {α : Type} : List α → List α × List α
  | [] => ([], [])
  | row :: rest =>
    let r := flushPending rest
    (row :: r.1, r.2)

/-! Section: Python string and integer helpers

The signal-row interpreter in `backend/processes.py` funnels every cell
through `str(value).strip()` and `int(text, 0)`.  The helpers below embed
those library primitives.  `pyIntBase0` models CPython `int(text, 0)` for an
optional sign followed by a decimal, hexadecimal (`0x`), octal (`0o`) or
binary (`0b`) literal; a decimal literal with a leading zero and a nonzero
digit is a `ValueError`, as in CPython.  Underscore digit separators are not
modelled and count as parse failures. -/

/-- ASCII whitespace, as matched by `str.strip()` and the regex class `\s`. -/
def isPySpace (c : Char) : Bool :=
  c = ' ' ∨ c = '\t' ∨ c = '\n' ∨ c = '\r' ∨ c = '\x0b' ∨ c = '\x0c'

/-- Embeds Python `str.strip()`. -/
def pyStrip (s : String) : String :=
  String.mk (((s.data.dropWhile isPySpace).reverse.dropWhile isPySpace).reverse)

/-- Value of one digit character in the given base, if valid. -/
def digitVal (base : Nat) (c : Char) : Option Nat :=
  let v : Nat :=
    if '0'.toNat ≤ c.toNat ∧ c.toNat ≤ '9'.toNat then c.toNat - '0'.toNat
    else if 'a'.toNat ≤ c.toNat ∧ c.toNat ≤ 'z'.toNat then c.toNat - 'a'.toNat + 10
    else if 'A'.toNat ≤ c.toNat ∧ c.toNat ≤ 'Z'.toNat then c.toNat - 'A'.toNat + 10
    else 99
  if v < base then some v else none

/-- Parses a non-empty all-digit string in the given base. -/
def parseDigitsAux (base : Nat) : List Char → Nat → Option Nat
  | [], acc => some acc
  | c :: cs, acc =>
    match digitVal base c with
    | some v => parseDigitsAux base cs (acc * base + v)
    | none => none

/-- Parses a non-empty digit string in the given base. -/
def parseDigits (base : Nat) (cs : List Char) : Option Nat :=
  if cs.isEmpty then none else parseDigitsAux base cs 0

/-- Embeds CPython `int(s, 0)`; `none` models a raised `ValueError`. -/
def pyIntBase0 (s : String) : Option Int :=
  let t := (pyStrip s).data
  let signAndRest : Bool × List Char :=
    match t with
    | '+' :: r => (false, r)
    | '-' :: r => (true, r)
    | r => (false, r)
  let neg := signAndRest.1
  let rest := signAndRest.2
  let mag : Option Nat :=
    match rest with
    | '0' :: c :: r =>
      if c = 'x' ∨ c = 'X' then parseDigits 16 r
      else if c = 'o' ∨ c = 'O' then parseDigits 8 r
      else if c = 'b' ∨ c = 'B' then parseDigits 2 r
      else if (c :: r).all (· = '0') then some 0
      else none
    | r => parseDigits 10 r
  mag.map (fun m => if neg then -(m : Int) else (m : Int))

/-- Embeds `_safe_int` (processes.py lines 255-262): strip the text, return
the default when it is empty or `int(text, 0)` raises. -/
def safeInt (value : String) (dflt : Int) : Int :=
  let text := pyStrip value
  if text = "" then dflt else (pyIntBase0 text).getD dflt

/-! Section: ASDU value codec (backend/processes.py) -/

/-- Embeds `TYPE_INFORMATION_LENGTHS` (processes.py lines 45-63): bytes per
information element (without the IOA) for each supported type identifier. -/
def typeInformationLengths (t : Nat) : Option Nat :=
  if t = 1 then some 1 else if t = 3 then some 1
  else if t = 5 then some 2 else if t = 7 then some 5
  else if t = 9 then some 3 else if t = 11 then some 3
  else if t = 13 then some 5 else if t = 15 then some 5
  else if t = 30 then some 8 else if t = 31 then some 8
  else if t = 36 then some 12 else if t = 58 then some 8
  else if t = 59 then some 1 else if t = 63 then some 12
  else if t = 70 then some 1 else if t = 100 then some 1
  else if t = 103 then some 7 else none

/-- Embeds `TYPE_VALUE_FIELD_LENGTHS` (processes.py lines 67-85). -/
def typeValueFieldLengths (t : Nat) : Option Nat :=
  if t = 1 then some 1 else if t = 3 then some 1
  else if t = 5 then some 1 else if t = 7 then some 4
  else if t = 9 then some 2 else if t = 11 then some 2
  else if t = 13 then some 4 else if t = 15 then some 4
  else if t = 30 then some 1 else if t = 31 then some 1
  else if t = 36 then some 4 else if t = 58 then some 1
  else if t = 59 then some 1 else if t = 63 then some 5
  else if t = 70 then some 1 else if t = 100 then some 1
  else if t = 103 then some 7 else none

/-- Embeds `TIMESTAMP_TYPES` (processes.py line 88). -/
def timestampTypes (t : Nat) : Bool :=
  t = 30 ∨ t = 31 ∨ t = 36 ∨ t = 58 ∨ t = 63 ∨ t = 103

/-- Embeds `TIME_ONLY_TYPES` (processes.py line 89). -/
def timeOnlyTypes (t : Nat) : Bool :=
  t = 103

/-- Embeds `QUALIFIER_FIELD_SPECS` (processes.py lines 92-109): label and
byte offset of the qualifier field per type identifier. -/
def qualifierFieldSpecs (t : Nat) : Option (String × Nat) :=
  if t = 1 then some ("SIQ", 0) else if t = 3 then some ("DIQ", 0)
  else if t = 5 then some ("QDS", 1) else if t = 7 then some ("QDS", 4)
  else if t = 9 then some ("QDS", 2) else if t = 11 then some ("QDS", 2)
  else if t = 13 then some ("QDS", 4) else if t = 15 then some ("QDS", 4)
  else if t = 30 then some ("SIQ", 0) else if t = 31 then some ("DIQ", 0)
  else if t = 36 then some ("QDS", 4) else if t = 58 then some ("DCO", 0)
  else if t = 59 then some ("QRP", 0) else if t = 63 then some ("QOS", 4)
  else if t = 70 then some ("COI", 0) else if t = 100 then some ("QOI", 0)
  else none

/-- Whether `n` is representable on `len ≥ 1` bytes with the given
signedness, i.e. whether Python `n.to_bytes(len, "little", signed=signed)`
succeeds. -/
def intFitsBytes (n : Int) (len : Nat) (signed : Bool) : Bool :=
  if signed then
    decide (-((2 : Int) ^ (8 * len - 1)) ≤ n ∧ n < (2 : Int) ^ (8 * len - 1))
  else
    decide (0 ≤ n ∧ n < (2 : Int) ^ (8 * len))

/-- Embeds Python `n.to_bytes(len, "little", signed=signed)` for `len ≥ 1`:
`none` models the `OverflowError` raised when `n` does not fit, otherwise the
little-endian two's-complement byte string of exactly `len` bytes. -/
def pyToBytesLE (n : Int) (len : Nat) (signed : Bool) : Option (List Nat) :=
  if intFitsBytes n len signed then
    some (natLE (n.emod ((2 : Int) ^ (8 * len))).toNat len)
  else none

/-- The stripped value text's parsed integer, with the source's fallbacks:
empty text parses as `0` (`int(text or 0, 0)` with the default swallowed by
the surrounding `except`), and an unparsable text becomes `0`
(processes.py lines 278-281). -/
def parsedNumber (value_text : String) : Int :=
  let text := pyStrip value_text
  if text = "" then 0 else (pyIntBase0 text).getD 0

/-- `signed_types` minus `unsigned_types` (processes.py lines 282-284); the
two sets are disjoint, so the subtraction is the `signed_types` test. -/
def isSignedType (t : Nat) : Bool :=
  t = 5 ∨ t = 9 ∨ t = 11 ∨ t = 13 ∨ t = 15 ∨ t = 36

/-- Embeds `_encode_value_bytes` (processes.py lines 266-288).  `packFloat`
stands for the external primitive `struct.pack("<f", float(text))`: it
returns the 4 IEEE-754 bytes of the parsed float, or `none` when `float(text)`
raises so that control falls through to the integer path.  The result `none`
models the `OverflowError` escaping from `int.to_bytes`. -/
def encodeValueBytes (packFloat : String → Option (List Nat)) (type_id : Nat)
    (value_text : String) (length : Nat) : Option (List Nat) :=
  if length = 0 then some []
  else
    let text := pyStrip value_text
    let floatBranch : Option (List Nat) :=
      if type_id = 13 ∨ type_id = 36 ∨ type_id = 63 then
        (packFloat (if text = "" then "0" else text)).map (fun fp =>
          if length ≤ fp.length then fp.take length
          else fp ++ List.replicate (length - fp.length) 0)
      else none
    match floatBranch with
    | some r => some r
    | none =>
      (pyToBytesLE (parsedNumber value_text) length (isSignedType type_id)).map
        (fun raw => ((raw ++ List.replicate (length - raw.length) 0).take length))

/-- Broken-down local time, mirroring the fields of Python `time.localtime`
that `_build_cp56time2a` reads. -/
structure PyTm where
  tm_min : Nat
  tm_hour : Nat
  tm_wday : Nat
  tm_mday : Nat
  tm_mon : Nat
  tm_year : Nat
deriving DecidableEq, Repr

/-- Embeds `_build_cp56time2a` (processes.py lines 292-303) with the wall
clock made explicit: `millis` is `int(round(ts * 1000))` and `tm` the local
broken-down time of `ts`.  Python's `(tm_year - 2000) & 0x7F` on a possibly
negative difference equals the integer modulus by 128. -/
def buildCp56time2a (millis : Nat) (tm : PyTm) : List Nat :=
  let m := millis % 60000
  [m % 256, m / 256,
   tm.tm_min &&& 0x3F,
   tm.tm_hour &&& 0x1F,
   (tm.tm_mday &&& 0x1F) ||| (((tm.tm_wday + 1) &&& 0x07) <<< 5),
   tm.tm_mon &&& 0x0F,
   (((tm.tm_year : Int) - 2000).emod 128).toNat]

/-- Embeds `_parse_qualifier_byte` (processes.py lines 310-316): the stripped
text must match `^[01]{8}$`, in which case its base-2 value is returned. -/
def parseQualifierByte (value : Option String) : Option Nat :=
  match value with
  | none => none
  | some v =>
    let text := pyStrip v
    if text.data.length = 8 ∧ text.data.all (fun c => c = '0' ∨ c = '1') then
      some (((parseDigits 2 text.data).getD 0) &&& 0xFF)
    else none

/-- Splits a string at the first `=`, as `part.split("=", 1)` does when the
part contains one. -/
def splitEq : List Char → List Char × List Char
  | [] => ([], [])
  | c :: r =>
    if c = '=' then ([], r)
    else
      let p := splitEq r
      (c :: p.1, p.2)

/-- ASCII lower-casing, as `str.lower()` acts on the ASCII key names that
`_build_type_58_information` compares against. -/
def pyLower (s : String) : String :=
  String.mk (s.data.map (fun c =>
    if 'A'.toNat ≤ c.toNat ∧ c.toNat ≤ 'Z'.toNat then Char.ofNat (c.toNat + 32)
    else c))

/-- Embeds the regex `^([01])\s*,\s*(\d+)$` of `_build_type_58_information`
(processes.py line 326): on success returns the leading bit character and the
digit characters of the second group. -/
def parsePairMatch (cs : List Char) : Option (Char × List Char) :=
  match cs with
  | c :: rest =>
    if c = '0' ∨ c = '1' then
      match rest.dropWhile isPySpace with
      | ',' :: rest2 =>
        let digits := rest2.dropWhile isPySpace
        if digits ≠ [] ∧ digits.all (fun d => '0'.toNat ≤ d.toNat ∧ d.toNat ≤ '9'.toNat)
        then some (c, digits) else none
      | _ => none
    else none
  | [] => none

/-- One step of the part loop of `_build_type_58_information` (processes.py
lines 331-344), updating the `(se_flag, qu_value)` state. -/
def type58Step (st : Int × Int) (part : String) : Int × Int :=
  if part.data.contains '=' then
    let p := splitEq part.data
    let lowered := pyLower (pyStrip (String.mk p.1))
    let val := String.mk p.2
    if lowered = "se" ∨ lowered = "s/e" ∨ lowered = "select" ∨ lowered = "anwahl"
        ∨ lowered = "ausfuehrung" then
      ((safeInt val 0).emod 2, st.2)
    else if lowered = "qu" ∨ lowered = "qualifier" then
      (st.1, safeInt val 0)
    else if st.2 = 0 then (st.1, safeInt part 0) else st
  else if st.2 = 0 then (st.1, safeInt part 0) else st

/-- The DCO byte assembled by `_build_type_58_information` (processes.py
lines 320-347) from the value text (DCS, low two bits) and the qualifier
text (`S/E` flag and `QU` code). -/
def type58DCO (value_text : String) (qualifier_text : Option String) : Nat :=
  let dcs := ((safeInt value_text 0).emod 4).toNat
  let seQu : Int × Int :=
    match qualifier_text with
    | none => (0, 0)
    | some q =>
      if q = "" then (0, 0)
      else
        let text := pyStrip q
        match parsePairMatch text.data with
        | some p => ((safeInt (String.mk [p.1]) 0).emod 2, safeInt (String.mk p.2) 0)
        | none =>
          let parts := (text.data.splitOnP (fun c => c = ';' ∨ c = ',' ∨ isPySpace c)).map
            String.mk |>.filter (· ≠ "")
          parts.foldl type58Step (0, 0)
  let qu : Nat := (max 0 (min seQu.2 31)).toNat
  let se : Nat := seQu.1.toNat
  (se <<< 7) ||| ((qu &&& 0x1F) <<< 2) ||| dcs

/-- Embeds `_build_type_58_information` (processes.py lines 319-348): the DCO
byte followed by the CP56Time2a timestamp of the current wall time. -/
def buildType58Information (value_text : String) (qualifier_text : Option String)
    (millis : Nat) (tm : PyTm) : List Nat :=
  type58DCO value_text qualifier_text :: buildCp56time2a millis tm

/-- Writes `vals` into `l` starting at `start`, as the Python slice
assignment `l[start:start+len(vals)] = vals` with matching lengths. -/
def writeSlice (l : List Nat) (start : Nat) (vals : List Nat) : List Nat :=
  l.take start ++ vals ++ l.drop (start + vals.length)

/-- Embeds `_build_information_bytes` (processes.py lines 351-378).  The wall
clock of `_build_cp56time2a` is passed explicitly; `none` models the
`OverflowError` that `_encode_value_bytes` can raise. -/
def buildInformationBytes (packFloat : String → Option (List Nat)) (type_id : Nat)
    (value_text : String) (qualifier_text : Option String) (millis : Nat)
    (tm : PyTm) : Option (List Nat) :=
  if type_id = 58 then some (buildType58Information value_text qualifier_text millis tm)
  else
    let total := typeInformationLengths type_id
    let value_length0 := (typeValueFieldLengths type_id).getD (total.getD 0)
    let value_length := if timeOnlyTypes type_id then 0 else value_length0
    let encodedOpt : Option (List Nat) :=
      if value_length ≠ 0 then encodeValueBytes packFloat type_id value_text value_length
      else some []
    match encodedOpt with
    | none => none
    | some encoded =>
      match total with
      | none => some encoded
      | some T =>
        let payload := List.replicate T 0
        let payload := writeSlice payload 0 (encoded.take T)
        let payload :=
          if timestampTypes type_id then
            let cp := buildCp56time2a millis tm
            let start := T - cp.length
            writeSlice payload start (cp.take (T - start))
          else payload
        match parseQualifierByte qualifier_text with
        | none => some payload
        | some qv =>
          match qualifierFieldSpecs type_id with
          | none => some payload
          | some spec =>
            if spec.2 < T then some (payload.set spec.2 qv) else some payload

/-! Section: Endpoint frame handling (backend/processes.py) -/

/-- Observable effects of the endpoint loops: a published telegram event
(family, label, direction), bytes written to the socket, and a published
connection-status event. -/
inductive EndpointOutput where
  | telegram (frame_family label direction : String)
  | sendBytes (frame : List Nat)
  | status (connected : Bool)
deriving DecidableEq, Repr

/-- Embeds the per-frame body of `IEC104ClientProcess._loop` (processes.py
lines 651-656): publish the decoded telegram; if it is an I-frame, increment
the receive counter and acknowledge with an S-frame (`_send_s_frame`, lines
628-631, which also publishes the outgoing S event).  `none` models an
exception escaping the loop (the only candidate is `decode_frame`'s
`IndexError`), which fails the session; no other path closes it. -/
def clientHandleFrame (recvSeq : Nat) (frame : List Nat) :
    Option (Nat × List EndpointOutput) :=
  match decodeFrame frame with
  | none => none
  | some t =>
    let outs := [EndpointOutput.telegram t.frame_family t.label "incoming"]
    if t.frame_family = "I" then
      let r := recvSeq + 1
      some (r, outs ++ [EndpointOutput.sendBytes (build_s_frame r),
        EndpointOutput.telegram "S" "S-FRAME" "outgoing"])
    else some (recvSeq, outs)

/-- Outputs of `IEC104ServerProcess._send_general_confirmation`
(processes.py lines 829-852) for cause `cot`: the built I-frame and the
published outgoing event. -/
def serverGeneralConfirmation (sendSeq recvSeq origAddr commonAddr cot : Nat) :
    List EndpointOutput :=
  [EndpointOutput.sendBytes
    (build_i_frame sendSeq recvSeq 100 cot origAddr commonAddr 0 [20] 0x01),
   EndpointOutput.telegram "I" ((cotLabels 100 cot).getD "GENERALABFRAGE") "outgoing"]

/-- Embeds the per-frame body of `IEC104ServerProcess._handle_connection`
(processes.py lines 795-811): publish the decoded telegram; reply to
`STARTDT ACT`/`TESTFR ACT`; on an I-frame increment the receive counter,
answer a general interrogation (type 100, cause 6) with CON and END when no
test is active (`_send_general_interrogation_response`, lines 894-896, which
advances the send counter twice), then acknowledge with an S-frame.  The
state is `(recv_sequence, send_sequence)`. -/
def serverHandleFrame (testActive : Bool) (origAddr commonAddr : Nat)
    (recvSeq sendSeq : Nat) (frame : List Nat) :
    Option (Nat × Nat × List EndpointOutput) :=
  match decodeFrame frame with
  | none => none
  | some t =>
    let outs := [EndpointOutput.telegram t.frame_family t.label "incoming"]
    let outs :=
      if t.frame_family = "U" then
        outs ++
        (if t.label = "STARTDT ACT" then
          [EndpointOutput.sendBytes (build_u_frame 0x0B),
           EndpointOutput.telegram "U" "STARTDT CON" "outgoing"] else []) ++
        (if t.label = "TESTFR ACT" then
          [EndpointOutput.sendBytes (build_u_frame 0x83),
           EndpointOutput.telegram "U" "TESTFR CON" "outgoing"] else [])
      else outs
    if t.frame_family = "I" then
      let r := recvSeq + 1
      let gi := t.type_id = some 100 ∧ t.cause = some 6 ∧ ¬testActive
      let giOuts :=
        if gi then
          serverGeneralConfirmation sendSeq r origAddr commonAddr 7 ++
          serverGeneralConfirmation (sendSeq + 1) r origAddr commonAddr 10
        else []
      let s' := if gi then sendSeq + 2 else sendSeq
      some (r, s', outs ++ giOuts ++
        [EndpointOutput.sendBytes (build_s_frame r),
         EndpointOutput.telegram "S" "S-FRAME" "outgoing"])
    else some (recvSeq, sendSeq, outs)

/-! Section: Communication history (backend/history.py)

`record` serialises a telegram payload as one JSON line and `load` parses the
lines back; since `json.loads(json.dumps(p)) = p` for the dict payloads that
`record` accepts, the file is modelled as the list of recorded payloads
(abstracted to `Nat` identifiers), one per line. -/

/-- Per-side files of a `CommunicationHistory` (`client.jsonl`,
`server.jsonl`). -/
structure HistoryState where
  client : List Nat
  server : List Nat
deriving DecidableEq, Repr

/-- Embeds `CommunicationHistory._file_for` (history.py lines 28-31): `none`
models the `ValueError` raised for an unknown side. -/
def sideLines (st : HistoryState) (side : String) : Option (List Nat) :=
  if side = "client" then some st.client
  else if side = "server" then some st.server
  else none

/-- Embeds `CommunicationHistory.record` (history.py lines 34-47): only
events tagged `telegram` whose payload side is valid are appended to that
side's file. -/
def record (st : HistoryState) (isTelegram : Bool) (side : String)
    (payload : Nat) : HistoryState :=
  if ¬isTelegram then st
  else if side = "client" then { st with client := st.client ++ [payload] }
  else if side = "server" then { st with server := st.server ++ [payload] }
  else st

/-- The tail kept by `collections.deque(maxlen=limit)` after appending every
line in order: the last `limit` lines. -/
def takeLast {α : Type} (n : Nat) (l : List α) : List α :=
  l.drop (l.length - n)

/-- Embeds the line selection of `CommunicationHistory.load` (history.py
lines 50-71): a positive limit keeps the last `limit` lines via a bounded
deque, any other limit (including the omitted default `None`) keeps all
lines. -/
def loadTail (lines : List Nat) (limit : Option Int) : List Nat :=
  match limit with
  | some l => if 0 < l then takeLast l.toNat lines else lines
  | none => lines

/-- Embeds `CommunicationHistory.load` (history.py lines 50-71) on the
modelled state; `none` models the `ValueError` of `_file_for`. -/
def load (st : HistoryState) (side : String) (limit : Option Int) :
    Option (List Nat) :=
  (sideLines st side).map (fun lines => loadTail lines limit)

/-! Section: Configuration save-time validation (main.py) -/

/-- The columns of a signal row consulted by the validators: the
`"IEC104- Typ"` cell (absent modelled as the default `""` of
`row.get("IEC104- Typ", "")`) and the `"Qualifier"` cell (absent modelled as
`None`, the default of `row.get("Qualifier")`). -/
structure SignalRow where
  typText : String
  qualifier : Option String
deriving DecidableEq, Repr

/-- Embeds `REQUIRED_SIGNAL_HEADERS` (main.py lines 70-83). -/
def requiredSignalHeaders : List String :=
  ["Datenpunkt / Meldetext", "IEC104- Typ", "IOA 3", "IOA 2", "IOA 1",
   "Übertragungsursache", "Herkunftsadresse", "Wert", "Qualifier",
   "Quelle/Senke von der FWK betrachtet", "Quelle/Senke von der NLS betrachtet",
   "GA- Generalabfrage (keine Wischer)"]

/-- Embeds `_validate_signal_headers` (main.py lines 771-773). -/
def validateSignalHeaders (headers : List String) : List String :=
  requiredSignalHeaders.filter (fun h => ¬ headers.contains h)

/-- Embeds `_validate_qualifier_bits` (main.py lines 779-781): `None` and the
empty string coincide via `value or ""`; the stripped text must match
`^[01]{8}$`. -/
def validateQualifierBits (value : Option String) : Bool :=
  let text := pyStrip (value.getD "")
  text.data.length = 8 ∧ text.data.all (fun c => c = '0' ∨ c = '1')

/-- Embeds `_validate_qualifier_column` (main.py lines 784-791): the 1-based
index of the first row whose type cell is non-empty after stripping and whose
qualifier fails validation; rows with an empty type cell are skipped. -/
def validateQualifierColumnAux : Nat → List SignalRow → Option Nat
  | _, [] => none
  | idx, row :: rest =>
    if pyStrip row.typText = "" then validateQualifierColumnAux (idx + 1) rest
    else if ¬ validateQualifierBits row.qualifier then some idx
    else validateQualifierColumnAux (idx + 1) rest

/-- `_validate_qualifier_column` starting at row index 1. -/
def validateQualifierColumn (rows : List SignalRow) : Option Nat :=
  validateQualifierColumnAux 1 rows

/-- One sub-test (`Teilprüfung`) of an incoming configuration payload: its
kind, and its signal list's headers and rows when the `signalliste` entry is
a dict (`none` otherwise). -/
structure TeilPayload where
  pruefungsart : String
  signalliste : Option (List String × List SignalRow)
deriving DecidableEq, Repr

/-- A normalized sub-test as `_store_configuration` persists it. -/
structure NormalizedTeil where
  index : Nat
  pruefungsart : String
  headers : List String
  rows : List SignalRow
deriving DecidableEq, Repr

/-- The sub-test loop of `_store_configuration` (main.py lines 846-875):
sub-tests without a kind or a signal-list dict are skipped; missing required
headers or an invalid qualifier column reject the whole configuration with a
`ValueError`, modelled as `Except.error`. -/
def storeTeils : Nat → List TeilPayload → Except String (List NormalizedTeil)
  | _, [] => Except.ok []
  | idx, teil :: rest =>
    match teil.signalliste with
    | none => storeTeils (idx + 1) rest
    | some sl =>
      if teil.pruefungsart = "" then storeTeils (idx + 1) rest
      else if validateSignalHeaders sl.1 ≠ [] then
        Except.error "Signalliste fehlt Pflichtspalten"
      else
        match validateQualifierColumn sl.2 with
        | some _ => Except.error "Signalliste enthält einen ungültigen Qualifier"
        | none =>
          (storeTeils (idx + 1) rest).map
            (fun normalized => ⟨idx, teil.pruefungsart, sl.1, sl.2⟩ :: normalized)

/-- Embeds `_store_configuration` (main.py lines 838-884): an empty name is
rejected, then the sub-tests are validated and normalized. -/
def storeConfiguration (name : String) (teils : List TeilPayload) :
    Except String (List NormalizedTeil) :=
  if pyStrip name = "" then Except.error "Ein Name für die Prüfung ist erforderlich."
  else storeTeils 1 teils

/-! Section: Test orchestrator (main.py, `PruefungRunner` and
`TeilpruefungRecorder`)

The runner thread of `PruefungRunner._run` (main.py lines 1117-1162) is
sequential between its blocking points; it is modelled as a pure loop over
the sub-tests.  The environment of one sub-test — what the dispatch and wait
phases would record, and whether an abort request arrives during them — is
passed in as functions, since the claim under study aborts before they run.
Statuses keep their German source strings: `"In Warteschlange"` (queued),
`"Vorbereiten"` (preparing), `"Wird durchgeführt"` (running),
`"Abgeschlossen"` (completed), `"Abgebrochen"` (aborted). -/

/-- One recording written by `TeilpruefungRecorder.finish` (main.py lines
268-295): the sub-test index, the `aborted` flag, and the recorded telegram
entries (abstracted to `Nat` identifiers). -/
structure Recording where
  teilIndex : Nat
  aborted : Bool
  entries : List Nat
deriving DecidableEq, Repr

/-- Embeds `_mark_all_aborted_locked` (main.py lines 914-918): every
sub-test not yet completed is marked aborted. -/
def markAllAborted (statuses : List String) : List String :=
  statuses.map (fun s => if s = "Abgeschlossen" then s else "Abgebrochen")

/-- Embeds `_set_status` (main.py lines 928-934). -/
def setStatus (statuses : List String) (i : Nat) (st : String) : List String :=
  statuses.set i st

/-- State threaded through the run loop: the stop event, the per-sub-test
statuses, the recordings written so far, and the local `aborted` flag of
`_run`. -/
structure RunAcc where
  stop : Bool
  statuses : List String
  recordings : List Recording
  aborted : Bool
deriving DecidableEq, Repr

/-- The sub-test loop of `PruefungRunner._run` (main.py lines 1127-1159).
`envEntries i` is what the recorder holds after the dispatch and wait phases
of sub-test `i`; `envAbort i` is whether an abort request arrives during
them; `abortInPause i` is whether an abort request arrives during the
pre-test pause of sub-test `i` (observed by `_wait_or_abort`, lines
937-945).  An abort request (`abort`, lines 1198-1204) sets the stop event
and marks all non-completed sub-tests aborted; `_wait_or_abort` additionally
sets the current sub-test's status.  A recording closed during the pause
carries no entries, because `observe` records nothing before the first
`mark_signal_sent` (main.py lines 237-265). -/
def runTeils (envEntries : Nat → List Nat) (envAbort : Nat → Bool)
    (abortInPause : Nat → Bool) : Nat → Nat → RunAcc → RunAcc
  | 0, _, acc => acc
  | n + 1, i, acc =>
    if acc.stop then
      { acc with
        aborted := true
        recordings := acc.recordings ++ [⟨i, true, []⟩] }
    else
      let acc1 := { acc with statuses := setStatus acc.statuses i "Vorbereiten" }
      if abortInPause i then
        { acc1 with
          stop := true
          statuses := markAllAborted (setStatus acc1.statuses i "Abgebrochen")
          aborted := true
          recordings := acc1.recordings ++ [⟨i, true, []⟩] }
      else
        let acc2 := { acc1 with
          statuses := setStatus acc1.statuses i "Wird durchgeführt" }
        let entries := envEntries i
        if envAbort i then
          { acc2 with
            stop := true
            statuses := markAllAborted acc2.statuses
            aborted := true
            recordings := acc2.recordings ++ [⟨i, true, entries⟩] }
        else
          runTeils envEntries envAbort abortInPause n (i + 1)
            { acc2 with
              statuses := setStatus acc2.statuses i "Abgeschlossen"
              recordings := acc2.recordings ++ [⟨i, false, entries⟩] }

/-- The persisted run summary (`_store_pruefprotokoll` via
`_sanitize_protocol_data`, main.py lines 596-628): its `aborted` flag and the
sub-test statuses it carries. -/
structure Protokoll where
  aborted : Bool
  statuses : List String
deriving DecidableEq, Repr

/-- Embeds a run of `PruefungRunner._run` over `n` sub-tests: the loop over
the sub-tests followed by the `finally` block's `_mark_finished` (main.py
lines 1048-1062, 1160-1162), which on an aborted run marks all non-completed
sub-tests aborted and persists the summary with `aborted=true`. -/
def runModel (envEntries : Nat → List Nat) (envAbort : Nat → Bool)
    (abortInPause : Nat → Bool) (n : Nat) : RunAcc × Protokoll :=
  let init : RunAcc := ⟨false, List.replicate n "In Warteschlange", [], false⟩
  let acc := runTeils envEntries envAbort abortInPause n 0 init
  let finalStatuses := if acc.aborted then markAllAborted acc.statuses else acc.statuses
  ({ acc with statuses := finalStatuses }, ⟨acc.aborted, finalStatuses⟩)

/-! Section: Parser lemmas -/

/-- Parsing is resumable: parsing `buf ++ d` yields first the frames parsed
from `buf` alone, then the frames of the residual buffer extended by `d`. -/
theorem parseFrames_append : ∀ (buf d : List Nat),
    parseFrames (buf ++ d) =
      ((parseFrames buf).1 ++ (parseFrames ((parseFrames buf).2 ++ d)).1,
       (parseFrames ((parseFrames buf).2 ++ d)).2)
  | [], d => by simp [parseFrames]
  | [b], d => by simp [parseFrames]
  | b :: b2 :: rest, d => by
    by_cases hb : b = 0x68
    · subst hb
      by_cases hlen : rest.length + 2 < b2 + 2
      · have hshort : parseFrames (0x68 :: b2 :: rest) = ([], 0x68 :: b2 :: rest) := by
          rw [parseFrames]; simp [hlen]
        rw [hshort]; simp
      · have hle : b2 + 2 ≤ rest.length + 2 := by omega
        have hlen2 : ¬ ((rest ++ d).length + 2 < b2 + 2) := by
          simp only [List.length_append]; omega
        rw [show (0x68 :: b2 :: rest) ++ d = 0x68 :: b2 :: (rest ++ d) by simp]
        conv_lhs => rw [parseFrames]
        conv_rhs => rw [parseFrames]
        simp only [ite_self, reduceIte, if_neg hlen, if_neg hlen2]
        have htake : (0x68 :: b2 :: (rest ++ d)).take (b2 + 2)
            = (0x68 :: b2 :: rest).take (b2 + 2) := by
          rw [show (0x68 : Nat) :: b2 :: (rest ++ d) = (0x68 :: b2 :: rest) ++ d by simp,
            List.take_append_of_le_length (by simpa using hle)]
        have hdrop : (0x68 :: b2 :: (rest ++ d)).drop (b2 + 2)
            = (0x68 :: b2 :: rest).drop (b2 + 2) ++ d := by
          rw [show (0x68 : Nat) :: b2 :: (rest ++ d) = (0x68 :: b2 :: rest) ++ d by simp,
            List.drop_append_of_le_length (by simpa using hle)]
        rw [htake, hdrop, parseFrames_append ((0x68 :: b2 :: rest).drop (b2 + 2)) d]
        simp
    · rw [show (b :: b2 :: rest) ++ d = b :: b2 :: (rest ++ d) by simp]
      conv_lhs => rw [parseFrames]
      conv_rhs => rw [parseFrames]
      simp only [if_pos hb, if_neg hb, ite_not]
      rw [show b2 :: (rest ++ d) = (b2 :: rest) ++ d by simp]
      exact parseFrames_append (b2 :: rest) d
termination_by buf => buf.length
decreasing_by
  · simp only [List.length_drop, List.length_cons]; omega
  · simp

/-- The residual buffer left by the parser is a fixpoint: parsing it again
yields no frame. -/
theorem parseFrames_residual : ∀ buf : List Nat,
    parseFrames (parseFrames buf).2 = ([], (parseFrames buf).2)
  | [] => by simp [parseFrames]
  | [b] => by simp [parseFrames]
  | b :: b2 :: rest => by
    by_cases hb : b = 0x68
    · subst hb
      by_cases hlen : rest.length + 2 < b2 + 2
      · conv_lhs => rw [parseFrames, if_pos hlen]
        rw [parseFrames]
        simp [hlen, parseFrames, if_pos hlen]
      · conv_lhs => rw [parseFrames]
        conv_rhs => rw [parseFrames]
        simp only [ite_self, reduceIte, if_neg hlen]
        exact parseFrames_residual ((0x68 :: b2 :: rest).drop (b2 + 2))
    · conv_lhs => rw [parseFrames]
      conv_rhs => rw [parseFrames]
      simp only [if_neg hb, ite_not, if_pos hb]
      exact parseFrames_residual (b2 :: rest)
termination_by buf => buf.length
decreasing_by
  · simp only [List.length_drop, List.length_cons]; omega
  · simp

/-- Folding `feed` over chunks from any accumulated frames and any residual
buffer equals one parse of the joined bytes. -/
theorem feedAll_loop : ∀ (chunks : List (List Nat)) (fs : List (List Nat))
    (r : List Nat), parseFrames r = ([], r) →
    chunks.foldl (fun acc c =>
      let q := feedParser acc.2 c
      (acc.1 ++ q.1, q.2)) (fs, r) =
    (fs ++ (parseFrames (r ++ chunks.flatten)).1, (parseFrames (r ++ chunks.flatten)).2)
  | [], fs, r, hr => by simp [hr]
  | c :: cs, fs, r, hr => by
    simp only [List.foldl_cons, List.flatten_cons]
    rw [feedAll_loop cs (fs ++ (feedParser r c).1) (feedParser r c).2
      (parseFrames_residual (r ++ c))]
    rw [show r ++ (c ++ cs.flatten) = (r ++ c) ++ cs.flatten by simp,
      parseFrames_append (r ++ c) cs.flatten]
    simp [feedParser]

/-- A prefix of non-`0x68` bytes followed by one complete frame parses to
exactly that frame with an empty residual buffer. -/
theorem parseFrames_resync : ∀ (g : List Nat) (L : Nat) (body : List Nat),
    (∀ x ∈ g, x ≠ 0x68) → body.length = L →
    parseFrames (g ++ 0x68 :: L :: body) = ([0x68 :: L :: body], [])
  | [], L, body, _, hlen => by
    rw [List.nil_append, parseFrames]
    have hcond : ¬ (body.length + 2 < L + 2) := by omega
    simp only [ite_self, reduceIte, if_neg hcond]
    have htake : (0x68 :: L :: body).take (L + 2) = 0x68 :: L :: body := by
      apply List.take_of_length_le; simp [hlen]
    have hdrop : (0x68 :: L :: body).drop (L + 2) = [] := by
      apply List.drop_eq_nil_of_le; simp [hlen]
    rw [htake, hdrop]
    simp [parseFrames]
  | a :: g, L, body, hg, hlen => by
    have ha : a ≠ 0x68 := hg a (List.mem_cons_self a g)
    match g with
    | [] =>
      rw [List.cons_append, List.nil_append, parseFrames, if_pos ha]
      exact parseFrames_resync [] L body (by simp) hlen
    | b :: g' =>
      rw [show (a :: b :: g') ++ 0x68 :: L :: body
          = a :: b :: (g' ++ 0x68 :: L :: body) by simp, parseFrames, if_pos ha]
      exact parseFrames_resync (b :: g') L body
        (fun x hx => hg x (List.mem_cons_of_mem a hx)) hlen
termination_by g => g.length


/-! Section: Helper lemmas for the value codec and the S-frame arithmetic -/

/-- Masking with `0xFF` is reduction modulo 256. -/
theorem land255_eq_mod (x : Nat) : x &&& 255 = x % 256 := by
  simpa using Nat.and_pow_two_sub_one_eq_mod x 8

/-- The zero-pad-then-truncate step of the integer path of
`_encode_value_bytes` always yields exactly `L` bytes. -/
theorem encode_pad_take_length (raw : List Nat) (L : Nat) :
    ((raw ++ List.replicate (L - raw.length) 0).take L).length = L := by
  simp
  omega

/-- The truncate-or-pad step of the float path of `_encode_value_bytes`
always yields exactly `L` bytes. -/
theorem encode_float_pad_length (fp : List Nat) (L : Nat) :
    (if L ≤ fp.length then fp.take L
     else fp ++ List.replicate (L - fp.length) 0).length = L := by
  split <;> simp <;> omega

/-- A row with a non-empty type cell and an invalid qualifier makes the
qualifier-column validation report an index, wherever the scan starts. -/
theorem validateQualifierColumnAux_isSome (rows : List SignalRow) (row : SignalRow)
    (hmem : row ∈ rows) (htyp : pyStrip row.typText ≠ "")
    (hq : validateQualifierBits row.qualifier = false) :
    ∀ idx, ∃ j, validateQualifierColumnAux idx rows = some j := by
  induction rows with
  | nil => cases hmem
  | cons r rest ih =>
    intro idx
    rcases List.mem_cons.mp hmem with hr | hr
    · subst hr
      rw [validateQualifierColumnAux, if_neg htyp, if_pos (by simp [hq])]
      exact ⟨idx, rfl⟩
    · rw [validateQualifierColumnAux]
      split
      · exact ih hr idx.succ
      · split
        · exact ⟨idx, rfl⟩
        · exact ih hr idx.succ

/-- A sub-test that is validated (non-empty kind, signal list present) and
contains a row with a non-empty type cell and an invalid qualifier makes the
sub-test loop of `_store_configuration` fail. -/
theorem storeTeils_error (teils : List TeilPayload) (teil : TeilPayload)
    (headers : List String) (rows : List SignalRow) (row : SignalRow)
    (hmem : teil ∈ teils) (hsl : teil.signalliste = some (headers, rows))
    (hart : teil.pruefungsart ≠ "") (hrow : row ∈ rows)
    (htyp : pyStrip row.typText ≠ "")
    (hq : validateQualifierBits row.qualifier = false) :
    ∀ idx, ∃ msg, storeTeils idx teils = Except.error msg := by
  induction teils with
  | nil => cases hmem
  | cons t rest ih =>
    intro idx
    rcases List.mem_cons.mp hmem with ht | ht
    · subst ht
      simp only [storeTeils, hsl, if_neg hart]
      split
      · exact ⟨_, rfl⟩
      · obtain ⟨j, hj⟩ := validateQualifierColumnAux_isSome rows row hrow htyp hq 1
        unfold validateQualifierColumn
        rw [hj]
        exact ⟨_, rfl⟩
    · rw [storeTeils]
      split
      · exact ih ht (idx + 1)
      · split
        · exact ih ht (idx + 1)
        · split
          · exact ⟨_, rfl⟩
          · split
            · exact ⟨_, rfl⟩
            · obtain ⟨msg, hmsg⟩ := ih ht (idx + 1)
              rw [hmsg]
              exact ⟨msg, rfl⟩

/-! Section: Claims -/

/-- Claim C1, counterexample.  An open client session with `v_r = 0` receives
an I-frame whose send sequence number is 5 (control bytes `0A 00`): contrary
to the claim, the session is not failed — the handler returns normally with
the receive counter incremented to 1 and an S-frame acknowledgement, and no
`status connected=false` event is emitted. -/
theorem claim_C1_counterexample :
    (extractSequences [0x68, 0x04, 0x0A, 0x00, 0x00, 0x00]).1 = 5 ∧
    clientHandleFrame 0 [0x68, 0x04, 0x0A, 0x00, 0x00, 0x00]
      = some (1, [EndpointOutput.telegram "I" "I-FRAME" "incoming",
          EndpointOutput.sendBytes [0x68, 0x04, 0x01, 0x00, 0x02, 0x00],
          EndpointOutput.telegram "S" "S-FRAME" "outgoing"]) ∧
    EndpointOutput.status false ∉
      [EndpointOutput.telegram "I" "I-FRAME" "incoming",
       EndpointOutput.sendBytes [0x68, 0x04, 0x01, 0x00, 0x02, 0x00],
       EndpointOutput.telegram "S" "S-FRAME" "outgoing"] := by decide

/-- Claim C1, amended.  On receiving any I-frame — regardless of whether its
send sequence number equals the session's receive counter `v_r` — neither
endpoint performs a sequence check or fails the session: the client
increments `v_r` and acknowledges with an S-frame, and the server does the
same (answering a general interrogation when applicable); no status event is
emitted by the frame handling, so no `connected=false` is published. -/
theorem claim_C1 :
    ∀ (recvSeq : Nat) (frame : List Nat) (t : Telegram),
      decodeFrame frame = some t → t.frame_family = "I" →
      (clientHandleFrame recvSeq frame
        = some (recvSeq + 1,
            [EndpointOutput.telegram "I" t.label "incoming",
             EndpointOutput.sendBytes (build_s_frame (recvSeq + 1)),
             EndpointOutput.telegram "S" "S-FRAME" "outgoing"])) ∧
      (∀ (testActive : Bool) (origAddr commonAddr sendSeq : Nat),
        ∃ s' outs,
          serverHandleFrame testActive origAddr commonAddr recvSeq sendSeq frame
            = some (recvSeq + 1, s', outs) ∧
          ∀ b, EndpointOutput.status b ∉ outs) := by
  intro recvSeq frame t hdec hfam
  constructor
  · simp [clientHandleFrame, hdec, hfam]
  · intro ta oa ca ss
    have hU : t.frame_family ≠ "U" := by rw [hfam]; decide
    by_cases hgi : t.type_id = some 100 ∧ t.cause = some 6 ∧ ¬ta
    · refine ⟨ss + 2,
        [EndpointOutput.telegram t.frame_family t.label "incoming"] ++
          (serverGeneralConfirmation ss (recvSeq + 1) oa ca 7 ++
           serverGeneralConfirmation (ss + 1) (recvSeq + 1) oa ca 10) ++
          [EndpointOutput.sendBytes (build_s_frame (recvSeq + 1)),
           EndpointOutput.telegram "S" "S-FRAME" "outgoing"], ?_, ?_⟩
      · simp [serverHandleFrame, hdec, hfam, hU, hgi]
      · intro b
        simp [serverGeneralConfirmation]
    · refine ⟨ss,
        [EndpointOutput.telegram t.frame_family t.label "incoming"] ++
          [EndpointOutput.sendBytes (build_s_frame (recvSeq + 1)),
           EndpointOutput.telegram "S" "S-FRAME" "outgoing"], ?_, ?_⟩
      · simp only [Bool.not_eq_true] at hgi
        simp [serverHandleFrame, hdec, hfam, hU, hgi]
      · intro b
        simp

/-- Claim C1, witness: the amended theorem applied to a concrete mismatched
I-frame received at `v_r = 3`. -/
theorem claim_C1_witness :
    clientHandleFrame 3 [0x68, 0x04, 0x0A, 0x00, 0x00, 0x00]
      = some (4, [EndpointOutput.telegram "I" "I-FRAME" "incoming",
          EndpointOutput.sendBytes (build_s_frame 4),
          EndpointOutput.telegram "S" "S-FRAME" "outgoing"]) :=
  (claim_C1 3 [0x68, 0x04, 0x0A, 0x00, 0x00, 0x00]
    ⟨"I", "I-FRAME", none, none, none, none, none, [], "incoming"⟩
    (by decide) (by decide)).1

/-- Claim C2, counterexample.  With `k = 3` and five I-frames enqueued and no
acknowledgements, `_flush_pending` transmits all five (not exactly three),
and a `FlowControl` counter stepped once per transmitted frame reaches 5,
exceeding `k`. -/
theorem claim_C2_counterexample :
    (flushPending [1, 2, 3, 4, 5]).1.length = 5 ∧
    (FlowControl.frame_sent^[5] ⟨3, 8, 0⟩).sent_without_ack = 5 ∧
    ¬ (5 ≤ 3) := by decide

/-- Claim C2, amended.  `FlowControl.can_send` reports exactly whether
`sent_without_ack < k`, but no sending path consults it: `_flush_pending`
transmits every pending signal unconditionally, and iterating `frame_sent`
`n` times raises the unacknowledged counter by `n` with no bound at `k`. -/
theorem claim_C2 :
    (∀ (α : Type) (pending : List α), flushPending pending = (pending, [])) ∧
    (∀ fc : FlowControl, fc.can_send = true ↔ fc.sent_without_ack < fc.k) ∧
    (∀ (fc : FlowControl) (n : Nat),
      (FlowControl.frame_sent^[n] fc).sent_without_ack = fc.sent_without_ack + n) := by
  refine ⟨?_, ?_, ?_⟩
  · intro α pending
    induction pending with
    | nil => rfl
    | cons r rest ih => simp [flushPending, ih]
  · intro fc
    simp [FlowControl.can_send]
  · intro fc n
    induction n generalizing fc with
    | zero => simp
    | succ m ih =>
      rw [Function.iterate_succ_apply, ih]
      simp [FlowControl.frame_sent]
      omega

/-- Claim C3, counterexample.  The declared information length for type 58 is
not 7, and the information field built for a type-58 row is not 7 bytes
long. -/
theorem claim_C3_counterexample :
    typeInformationLengths 58 ≠ some 7 ∧
    (buildType58Information "1" (some "1,3") 0 ⟨0, 0, 0, 1, 1, 2024⟩).length ≠ 7 := by
  decide

/-- Claim C3, amended.  The encoded information field for type 58 is exactly
8 bytes — the DCO byte followed by the 7-byte CP56Time2a timestamp — and
`TYPE_INFORMATION_LENGTHS` declares 8 for type 58 (type 103 keeps 7 for its
timestamp-only field). -/
theorem claim_C3 :
    typeInformationLengths 58 = some 8 ∧
    (∀ (v : String) (q : Option String) (millis : Nat) (tm : PyTm),
      (buildType58Information v q millis tm).length = 8) ∧
    typeInformationLengths 103 = some 7 := by
  refine ⟨rfl, ?_, rfl⟩
  intro v q m tm
  simp [buildType58Information, buildCp56time2a]

/-- Claim C4, counterexample.  Encoding fails with an `OverflowError` instead
of clamping: for the unsigned 1-byte type 1, the value text `"256"` (out of
range) and `"-1"` (negative for an unsigned type) both raise. -/
theorem claim_C4_counterexample :
    encodeValueBytes (fun _ => none) 1 "256" 1 = none ∧
    encodeValueBytes (fun _ => none) 1 "-1" 1 = none := by decide

/-- Claim C4, amended.  Whenever `_encode_value_bytes` returns, it returns
exactly `L` bytes (zero-padding short encodings and truncating long ones),
but it is not total: for the non-float types the result is an
`OverflowError` exactly when the parsed integer does not fit `L` bytes with
the type's signedness — out-of-range and negative-for-unsigned values are
not clamped. -/
theorem claim_C4 :
    (∀ (packFloat : String → Option (List Nat)) (t : Nat) (text : String)
        (L : Nat) (bs : List Nat),
        encodeValueBytes packFloat t text L = some bs → bs.length = L) ∧
    (∀ (packFloat : String → Option (List Nat)) (t : Nat) (text : String)
        (L : Nat), ¬ (t = 13 ∨ t = 36 ∨ t = 63) → L ≠ 0 →
        (encodeValueBytes packFloat t text L = none ↔
          intFitsBytes (parsedNumber text) L (isSignedType t) = false)) := by
  constructor
  · intro pf t text L bs h
    by_cases hL0 : L = 0
    · subst hL0
      simp [encodeValueBytes] at h
      simp [← h]
    · simp only [encodeValueBytes, if_neg hL0] at h
      split at h
      · rename_i r heq
        cases h
        by_cases hft : t = 13 ∨ t = 36 ∨ t = 63
        · rw [if_pos hft, Option.map_eq_some'] at heq
          obtain ⟨fp, _, hfp⟩ := heq
          rw [← hfp]
          exact encode_float_pad_length fp L
        · rw [if_neg hft] at heq
          cases heq
      · rename_i heq
        rw [Option.map_eq_some'] at h
        obtain ⟨raw, _, hraw⟩ := h
        rw [← hraw]
        exact encode_pad_take_length raw L
  · intro pf t text L ht hL
    simp only [encodeValueBytes, if_neg hL, if_neg ht, pyToBytesLE]
    by_cases hfit : intFitsBytes (parsedNumber text) L (isSignedType t)
    · rw [if_pos hfit]
      simp [hfit]
    · rw [if_neg hfit]
      simp [Bool.not_eq_true] at hfit
      simp [hfit]

/-- Claim C4, witness: the amended theorem applied to the signed 2-byte
encoding of `"-5"` for type 9 and to the overflowing `"256"` for type 1. -/
theorem claim_C4_witness :
    ([0xFB, 0xFF] : List Nat).length = 2 ∧
    (encodeValueBytes (fun _ => none) 1 "256" 1 = none ↔
      intFitsBytes (parsedNumber "256") 1 (isSignedType 1) = false) :=
  ⟨claim_C4.1 (fun _ => none) 9 "-5" 2 [0xFB, 0xFF] (by decide),
   claim_C4.2 (fun _ => none) 1 "256" 1 (by decide) (by decide)⟩

/-- Claim C5.  Resynchronization: any prefix of non-`0x68` bytes followed by
one complete frame parses to exactly that frame; concretely the bytes
`FF FF 68 04 07 00 00 00` yield exactly one frame, which decodes as the
U-frame `STARTDT ACT`. -/
theorem claim_C5 :
    (∀ (garbage : List Nat) (L : Nat) (body : List Nat),
        (∀ x ∈ garbage, x ≠ 0x68) → body.length = L →
        parseFrames (garbage ++ 0x68 :: L :: body) = ([0x68 :: L :: body], [])) ∧
    feedParser [] [0xFF, 0xFF, 0x68, 0x04, 0x07, 0x00, 0x00, 0x00]
      = ([[0x68, 0x04, 0x07, 0x00, 0x00, 0x00]], []) ∧
    (decodeFrame [0x68, 0x04, 0x07, 0x00, 0x00, 0x00]).map
      (fun t => (t.frame_family, t.label)) = some ("U", "STARTDT ACT") := by
  refine ⟨parseFrames_resync, ?_, by decide⟩
  have h := parseFrames_resync [0xFF, 0xFF] 4 [0x07, 0x00, 0x00, 0x00]
    (by decide) (by decide)
  simpa [feedParser] using h

/-- Claim C5, witness: the resynchronization statement applied to the
concrete garbage prefix `FF FF` and the `STARTDT ACT` frame. -/
theorem claim_C5_witness :
    parseFrames ([0xFF, 0xFF] ++ 0x68 :: 4 :: [0x07, 0x00, 0x00, 0x00])
      = ([0x68 :: 4 :: [0x07, 0x00, 0x00, 0x00]], []) :=
  claim_C5.1 [0xFF, 0xFF] 4 [0x07, 0x00, 0x00, 0x00] (by decide) (by decide)

/-- Claim C6.  Build/decode round trips: each of the six valid U commands
decodes back to a U-frame carrying its label, and for every receive sequence
below `2 ^ 15` the built S-frame decodes as an S-frame whose extracted
receive counter is the original value. -/
theorem claim_C6 :
    (∀ p ∈ [((0x07 : Nat), "STARTDT ACT"), (0x0B, "STARTDT CON"),
            (0x13, "STOPDT ACT"), (0x23, "STOPDT CON"),
            (0x43, "TESTFR ACT"), (0x83, "TESTFR CON")],
        uFrameLabels p.1 = some p.2 ∧
        (decodeFrame (build_u_frame p.1)).map (fun t => (t.frame_family, t.label))
          = some ("U", p.2)) ∧
    (∀ v : Nat, v < 2 ^ 15 →
        (decodeFrame (build_s_frame v)).map Telegram.frame_family = some "S" ∧
        (extractSequences (build_s_frame v)).2 = v) := by
  constructor
  · decide
  · intro v hv
    constructor
    · simp [decodeFrame, build_s_frame]
    · show ((((v <<< 1 >>> 8) &&& 255) <<< 8) ||| ((v <<< 1) &&& 255)) >>> 1 = v
      rw [Nat.shiftLeft_eq, Nat.shiftLeft_eq, Nat.shiftRight_eq_div_pow,
        Nat.shiftRight_eq_div_pow, land255_eq_mod, land255_eq_mod,
        Nat.mul_comm _ (2 ^ 8), ← Nat.mul_add_lt_is_or (Nat.mod_lt _ (by norm_num)) _]
      norm_num
      omega

/-- Claim C6, witness: the round-trip statement applied to the `STARTDT ACT`
command and to the receive sequence 12345. -/
theorem claim_C6_witness :
    uFrameLabels 0x07 = some "STARTDT ACT" ∧
    (decodeFrame (build_u_frame 0x07)).map (fun t => (t.frame_family, t.label))
      = some ("U", "STARTDT ACT") ∧
    (extractSequences (build_s_frame 12345)).2 = 12345 :=
  ⟨(claim_C6.1 (0x07, "STARTDT ACT") (by decide)).1,
   (claim_C6.1 (0x07, "STARTDT ACT") (by decide)).2,
   (claim_C6.2 12345 (by norm_num)).2⟩

/-- Claim C7, counterexample.  A configuration containing a row whose
qualifier is present and invalid (`"xyz"`) but whose type cell is empty is
saved successfully — the qualifier-column validation skips rows with an
empty type cell, so such a row is not rejected at save time. -/
theorem claim_C7_counterexample :
    validateQualifierBits (some "xyz") = false ∧
    storeConfiguration "Test"
      [⟨"GA", some (requiredSignalHeaders, [⟨"", some "xyz"⟩])⟩]
      = Except.ok [⟨1, "GA", requiredSignalHeaders, [⟨"", some "xyz"⟩]⟩] :=
  ⟨by decide, rfl⟩

/-- Claim C7, amended.  In any sub-test with a non-empty kind and a signal
list, a row whose type cell is non-empty and whose qualifier is not exactly
8 binary digits (a missing qualifier counts as invalid) makes the whole
configuration rejected at save time; rows with an empty type cell are not
checked.  At run time a bad qualifier never rejects anything: for types
other than 58 an unparsable qualifier is simply ignored by the information
builder, and for type 58 the builder always succeeds. -/
theorem claim_C7 :
    (∀ (name : String) (teils : List TeilPayload) (teil : TeilPayload)
        (headers : List String) (rows : List SignalRow) (row : SignalRow),
        teil ∈ teils → teil.signalliste = some (headers, rows) →
        teil.pruefungsart ≠ "" → row ∈ rows → pyStrip row.typText ≠ "" →
        validateQualifierBits row.qualifier = false →
        ∃ msg, storeConfiguration name teils = Except.error msg) ∧
    (∀ (packFloat : String → Option (List Nat)) (t : Nat) (v q : String)
        (millis : Nat) (tm : PyTm), t ≠ 58 → parseQualifierByte (some q) = none →
        buildInformationBytes packFloat t v (some q) millis tm
          = buildInformationBytes packFloat t v none millis tm) ∧
    (∀ (packFloat : String → Option (List Nat)) (v : String)
        (q : Option String) (millis : Nat) (tm : PyTm),
        buildInformationBytes packFloat 58 v q millis tm
          = some (buildType58Information v q millis tm)) := by
  refine ⟨?_, ?_, ?_⟩
  · intro name teils teil headers rows row hmem hsl hart hrow htyp hq
    unfold storeConfiguration
    split
    · exact ⟨_, rfl⟩
    · exact storeTeils_error teils teil headers rows row hmem hsl hart hrow htyp hq 1
  · intro pf t v q millis tm ht hq
    simp only [buildInformationBytes, if_neg ht, hq,
      show parseQualifierByte (none : Option String) = none from rfl]
  · intro pf v q millis tm
    rfl

/-- Claim C7, witness: the amended theorem applied to a concrete sub-test
whose single row has type text `"5"` and qualifier `"bad"`, and to the
runtime encoding of type 1 with the same bad qualifier. -/
theorem claim_C7_witness :
    (∃ msg, storeConfiguration "Test"
        [⟨"GA", some (requiredSignalHeaders, [⟨"5", some "bad"⟩])⟩]
        = Except.error msg) ∧
    buildInformationBytes (fun _ => none) 1 "1" (some "bad") 0 ⟨0, 0, 0, 1, 1, 2024⟩
      = buildInformationBytes (fun _ => none) 1 "1" none 0 ⟨0, 0, 0, 1, 1, 2024⟩ :=
  ⟨claim_C7.1 "Test" _ ⟨"GA", some (requiredSignalHeaders, [⟨"5", some "bad"⟩])⟩
      requiredSignalHeaders [⟨"5", some "bad"⟩] ⟨"5", some "bad"⟩
      (by decide) rfl (by decide) (by decide) (by decide) (by decide),
   claim_C7.2.1 (fun _ => none) 1 "1" "bad" 0 ⟨0, 0, 0, 1, 1, 2024⟩
      (by decide) (by decide)⟩

/-- Claim C8.  Aborting a two-sub-test run during the pre-test pause of
sub-test 1 marks both sub-tests `Abgebrochen` (aborted), closes the
recording of sub-test 1 with `aborted = true` and no telegram entries, and
persists the run summary with `aborted = true` — for every possible
behaviour of the later dispatch phases, which are never reached. -/
theorem claim_C8 :
    ∀ (envEntries : Nat → List Nat) (envAbort : Nat → Bool),
      runModel envEntries envAbort (fun i => i == 0) 2
        = (⟨true, ["Abgebrochen", "Abgebrochen"], [⟨0, true, []⟩], true⟩,
           ⟨true, ["Abgebrochen", "Abgebrochen"]⟩) := by
  intro e a
  rfl

/-- Claim C9, counterexample.  With the limit argument omitted (`None`),
`load` returns all entries of the side's file — 1001 entries for a
1001-line file — not the claimed default of 1000. -/
theorem claim_C9_counterexample :
    load ⟨List.replicate 1001 0, []⟩ "client" none = some (List.replicate 1001 0) ∧
    (List.replicate 1001 (0 : Nat)).length = 1001 ∧ (1001 : Nat) ≠ 1000 := by
  refine ⟨rfl, by rw [List.length_replicate], by decide⟩

/-- Claim C9, amended.  For every side with a file, `load(side, limit)` with
a positive limit returns the most recent `limit` entries in append order (a
suffix of the file of length `min limit size`), and with the limit omitted
(`None`) it returns all entries — there is no default limit of 1000 in
`load` itself. -/
theorem claim_C9 :
    ∀ (st : HistoryState) (side : String) (lines : List Nat),
      sideLines st side = some lines →
      (load st side none = some lines) ∧
      (∀ l : Int, 0 < l →
        load st side (some l) = some (takeLast l.toNat lines) ∧
        (takeLast l.toNat lines).length = min l.toNat lines.length ∧
        takeLast l.toNat lines <:+ lines) := by
  intro st side lines h
  refine ⟨by simp [load, h, loadTail], ?_⟩
  intro l hl
  refine ⟨by simp [load, h, loadTail, hl], ?_, ?_⟩
  · simp [takeLast]
    omega
  · exact List.drop_suffix _ _

/-- Claim C9, witness: the amended theorem applied to a three-entry client
file with limit 2 and with the limit omitted. -/
theorem claim_C9_witness :
    load ⟨[1, 2, 3], []⟩ "client" (some 2) = some (takeLast (2 : Int).toNat [1, 2, 3]) ∧
    load ⟨[1, 2, 3], []⟩ "client" none = some [1, 2, 3] :=
  ⟨((claim_C9 ⟨[1, 2, 3], []⟩ "client" [1, 2, 3] rfl).2 2 (by decide)).1,
   (claim_C9 ⟨[1, 2, 3], []⟩ "client" [1, 2, 3] rfl).1⟩

/-- Claim C10.  Frame parsing is invariant under re-chunking: feeding any
chunks successively to one parser yields, concatenated, exactly the frames
(and residual buffer) of parsing the whole byte sequence at once. -/
theorem claim_C10 (chunks : List (List Nat)) :
    feedAll chunks = parseFrames chunks.flatten := by
  have h := feedAll_loop chunks [] [] (by simp [parseFrames])
  simpa [feedAll, feedParser] using h

end WNGW
